import Mathlib

/-!
Shallow embedding of the block-trace collector (`ebpf_block_trace.cpp`) and
of the kernel netlink bridge (`ml_predictor.c`).

Modelling conventions:
* Machine integers are `Nat`/`Int`.  The 64-bit signed/unsigned arithmetic of
  the jump-distance computation is modelled exactly, with explicit reduction
  modulo `2 ^ 64` (two's-complement wrap, which is what the generated code
  does on every mainstream target).  The window counters (`reqs`, `jumps`,
  `bytes_acc`) are modelled as unbounded naturals: wrapping them would
  require more than `2 ^ 64` events inside one bounded window, which no
  execution can produce.
* `float`/`double` arithmetic of `calculate_features` is modelled as exact
  rational arithmetic over `ℚ`; rounding of IEEE-754 operations is not
  modelled.
* Fallible system calls (sockets, netlink, sysfs) are modelled by explicit
  environment records that carry the result of each call, and the functions
  under verification become pure functions of that environment.
-/

namespace BlockTrace

/-- `JUMP_THRESHOLD_BYTES` from `ebpf_block_trace.cpp`. -/
def JUMP_THRESHOLD_BYTES : ℕ := 1000000

/-- `READAHEAD_MAP` from `ebpf_block_trace.cpp`: read-ahead KB per class. -/
def READAHEAD_MAP : List ℕ := [256, 16, 64]

/-- `DEFAULT_DEVICE` from `ebpf_block_trace.cpp`. -/
def DEFAULT_DEVICE : String := "sda2"

/-- Reinterpretation of a `uint64_t` value as `long long` (the C casts
`(long long)e.sector`, `(long long)stats.last_sector`). -/
def toInt64 (n : ℕ) : ℤ :=
  if n < 2 ^ 63 then (n : ℤ) else (n : ℤ) - 2 ^ 64

/-- Two's-complement wrap of an integer into the `long long` value range
`[-2 ^ 63, 2 ^ 63)`. -/
def wrap64 (z : ℤ) : ℤ :=
  (z + 2 ^ 63) % 2 ^ 64 - 2 ^ 63

/-- Reinterpretation of a `long long` value as `unsigned long long`
(the C cast `(unsigned long long)diff`). -/
def toUInt64Nat (z : ℤ) : ℕ :=
  (z % 2 ^ 64).toNat

/-- The absolute sector difference as the collector computes it, in 64-bit
machine arithmetic:
`long long diff = (long long)s - (long long)prev; if (diff < 0) diff = -diff;`
followed by the cast to `unsigned long long`.  Used both by the jump check in
`process_event` and by the distance loop in `calculate_features`. -/
def absDiff64 (prev s : ℕ) : ℕ :=
  let d0 := wrap64 (toInt64 s - toInt64 prev)
  toUInt64Nat (if d0 < 0 then wrap64 (-d0) else d0)

/-- The mathematical absolute sector distance `|s - prev|`, as written in the
spec ("computes `distance = |event.sector - last_sector|`").  Spec-side
definition, to be compared with `absDiff64`. -/
def specAbsDistance (prev s : ℕ) : ℕ :=
  max prev s - min prev s

/-- `struct BlockEvent` (user side of the perf record; `ts` and `rw` are
carried but unused by the aggregation). -/
structure BlockEvent where
  sector : ℕ
  bytes : ℕ
  ts : ℕ
  rw : ℕ
deriving DecidableEq

/-- `struct WindowStats`: the per-window aggregate. -/
structure WindowStats where
  sectors : List ℕ
  bytes_acc : ℕ
  reqs : ℕ
  jumps : ℕ
  last_sector : ℕ
deriving DecidableEq

/-- The `WindowStats` constructor / `reset()`: all counters zero, empty
sector sequence, `last_sector = 0` sentinel. -/
def WindowStats.init : WindowStats :=
  { sectors := [], bytes_acc := 0, reqs := 0, jumps := 0, last_sector := 0 }

/-- `EBPFBlockTrace::process_event`: unconditionally appends the sector,
accumulates bytes, bumps the request count; if `last_sector != 0`, performs
the 64-bit jump check (`diff * 512` is an `unsigned long long` product, hence
reduced mod `2 ^ 64`); finally sets `last_sector` to the event's sector. -/
def process_event (e : BlockEvent) (s : WindowStats) : WindowStats :=
  { sectors := s.sectors ++ [e.sector]
    bytes_acc := s.bytes_acc + e.bytes
    reqs := s.reqs + 1
    jumps :=
      if s.last_sector ≠ 0 then
        if (absDiff64 s.last_sector e.sector * 512) % 2 ^ 64 >
            JUMP_THRESHOLD_BYTES then
          s.jumps + 1
        else s.jumps
      else s.jumps
    last_sector := e.sector }

/-- A window run: fold `process_event` over the arriving events, starting
from the reset aggregate (the state the control loop reaches after
`stats.reset()`). -/
def runEvents (evs : List BlockEvent) : WindowStats :=
  evs.foldl (fun s e => process_event e s) WindowStats.init

/-- The kernel-side tracepoint handler of `BPF_PROGRAM`
(`block_rq_complete` / `block_rq_issue`): builds
`info.bytes = args->nr_sector * 512` in 32-bit arithmetic and submits the
record to the perf buffer only when `info.bytes > 0` ("Solo enviar si hay
datos válidos").  `ts` and `rw` are taken as inputs (clock and rwbs flag). -/
def bpf_handler (sector nr_sector ts rw : ℕ) : Option BlockEvent :=
  let info : BlockEvent :=
    { sector := sector, bytes := (nr_sector * 512) % 2 ^ 32, ts := ts, rw := rw }
  if 0 < info.bytes then some info else none

/-- The inner loop of `calculate_features` over `stats.sectors`: accumulates
the 64-bit absolute differences of consecutive sectors (`totald`, an
`unsigned long long`, hence mod `2 ^ 64`) and counts the pairs. -/
def distLoop : ℕ → ℕ → ℕ → List ℕ → ℕ × ℕ
  | totald, cnt, _, [] => (totald, cnt)
  | totald, cnt, prev, s :: rest =>
      distLoop ((totald + absDiff64 prev s) % 2 ^ 64) (cnt + 1) s rest

/-- `avg_sectors` of `calculate_features`: `0.0` unless the sequence has more
than one element, otherwise the mean of the consecutive 64-bit absolute
differences. -/
def avgDistanceSectors (l : List ℕ) : ℚ :=
  match l with
  | [] => 0
  | s :: rest =>
      if rest = [] then 0
      else
        let p := distLoop 0 0 s rest
        if p.2 ≠ 0 then (p.1 : ℚ) / (p.2 : ℚ) else 0

/-- The five-value feature vector; field `fI` is `f[I]` of the C array:
`f0` = avg distance bytes, `f1` = jump ratio, `f2` = avg io bytes,
`f3` = sequential ratio, `f4` = iops. -/
structure FeatureVec where
  f0 : ℚ
  f1 : ℚ
  f2 : ℚ
  f3 : ℚ
  f4 : ℚ
deriving DecidableEq

/-- `EBPFBlockTrace::calculate_features` over exact rationals: early
all-zero return when `reqs == 0`, otherwise the streaming statistics,
including the branch `iops > 0.001` and the two-sided clamp of
`seq_ratio = 1 - jump_ratio`. -/
def calculate_features (window_s : ℚ) (s : WindowStats) : FeatureVec :=
  if s.reqs = 0 then ⟨0, 0, 0, 0, 0⟩
  else
    let avg_sectors := avgDistanceSectors s.sectors
    let avg_bytes := avg_sectors * 512
    let jump_ratio := if s.reqs > 0 then (s.jumps : ℚ) / (s.reqs : ℚ) else 0
    let bw_kbps := ((s.bytes_acc : ℚ) / 1024) / window_s
    let iops := (s.reqs : ℚ) / window_s
    let avg_io_bytes := if iops > 1 / 1000 then bw_kbps * 1024 / iops else 0
    let seq0 : ℚ := 1 - jump_ratio
    let seq1 : ℚ := if seq0 < 0 then 0 else seq0
    let seq2 : ℚ := if seq1 > 1 then 1 else seq1
    ⟨avg_bytes, jump_ratio, avg_io_bytes, seq2, iops⟩

/-- A write to a sysfs control file: its path and the exact text written. -/
structure SysfsWrite where
  path : String
  content : String
deriving DecidableEq

/-- `EBPFBlockTrace::write_readahead`: the path is the fixed string
`"/sys/block/sda/queue/read_ahead_kb"` and the content is
`wf << val << std::endl`, i.e. the decimal digits of `val` followed by a
newline. -/
def write_readahead (val : ℕ) : SysfsWrite :=
  { path := "/sys/block/sda/queue/read_ahead_kb"
    content := Nat.repr val ++ "\n" }

/-- The read-ahead control endpoint of a given block device, following the
spec's words ("the device's read-ahead control endpoint", a per-device sysfs
control file).  Spec-side definition, to be compared with the path used by
`write_readahead`. -/
def specDeviceEndpoint (device : String) : String :=
  "/sys/block/" ++ device ++ "/queue/read_ahead_kb"

/-- The policy-application decision of one iteration of
`EBPFBlockTrace::run`: the read-ahead write is performed exactly when the
prediction satisfies `pred >= 0 && pred < 3`, with value
`READAHEAD_MAP[pred]`; otherwise no write happens for the window. -/
def windowApply (pred : ℤ) : Option SysfsWrite :=
  if 0 ≤ pred ∧ pred < 3 then
    some (write_readahead (READAHEAD_MAP.getD pred.toNat 0))
  else none

/-- Outcome of each system call performed by `send_to_daemon`, supplied by
the environment: whether `socket()` and `connect()` succeed, the return
values of `send()` and `recv()`, and the 4-byte integer the daemon stored
into `pred` when the `recv` succeeds. -/
structure NetEnv where
  socket_ok : Bool
  connect_ok : Bool
  send_ret : ℤ
  recv_ret : ℤ
  reply : ℤ
deriving DecidableEq

/-- Result of one `send_to_daemon` exchange: the returned prediction (or
`-1`), whether a socket was opened, and whether it was closed. -/
structure DaemonExchange where
  result : ℤ
  opened : Bool
  closed : Bool
deriving DecidableEq

/-- `EBPFBlockTrace::send_to_daemon`: fresh socket per call; `-1` on failed
`socket()`/`connect()`, on a send that does not transfer exactly
`5 * sizeof(float) = 20` bytes, and on a recv that does not transfer exactly
`sizeof(int) = 4` bytes; `close(sock)` on every path after a socket exists;
otherwise the daemon's reply. -/
def send_to_daemon (env : NetEnv) : DaemonExchange :=
  if ¬env.socket_ok then ⟨-1, false, false⟩
  else if ¬env.connect_ok then ⟨-1, true, true⟩
  else if env.send_ret ≠ 20 then ⟨-1, true, true⟩
  else if env.recv_ret ≠ 4 then ⟨-1, true, true⟩
  else ⟨env.reply, true, true⟩

end BlockTrace

namespace MLBridge

/-- `ENOTCONN` (errno 107). -/
def ENOTCONN : ℤ := 107

/-- `ENOMEM` (errno 12). -/
def ENOMEM : ℤ := 12

/-- `ETIMEDOUT` (errno 110). -/
def ETIMEDOUT : ℤ := 110

/-- `ERESTARTSYS` (kernel-internal errno 512), the only negative return value
of `wait_event_interruptible_timeout`. -/
def ERESTARTSYS : ℤ := 512

/-- Environment of one `ml_send_features` call in `ml_predictor.c`: socket
creation state, registered listener portid, allocation results, the return
value of `nlmsg_unicast`, the return value of
`wait_event_interruptible_timeout` (`0` = timeout, negative = interrupted,
positive = condition became true) and the 4-byte prediction copied from the
listener's reply. -/
structure MLEnv where
  nl_created : Bool
  listener_pid : ℤ
  alloc_ok : Bool
  put_ok : Bool
  unicast_ret : ℤ
  wait_ret : ℤ
  reply : ℤ
deriving DecidableEq

/-- `ml_send_features`: `-ENOTCONN` when the netlink socket is missing or no
listener registered, `-ENOMEM` on either allocation failure, the propagated
error of a failed `nlmsg_unicast`, `-ETIMEDOUT` when the 200 ms wait expires,
the propagated error of an interrupted wait, else the received prediction. -/
def ml_send_features (env : MLEnv) : ℤ :=
  if ¬env.nl_created ∨ env.listener_pid = 0 then -ENOTCONN
  else if ¬env.alloc_ok then -ENOMEM
  else if ¬env.put_ok then -ENOMEM
  else if env.unicast_ret < 0 then env.unicast_ret
  else if env.wait_ret = 0 then -ETIMEDOUT
  else if env.wait_ret < 0 then env.wait_ret
  else env.reply

/-- The path of `ml_send_features` on which the 200 ms deadline expires:
everything before the wait succeeded and the wait returned `0`. -/
def mlTimeoutPath (env : MLEnv) : Prop :=
  env.nl_created = true ∧ env.listener_pid ≠ 0 ∧ env.alloc_ok = true ∧
    env.put_ok = true ∧ 0 ≤ env.unicast_ret ∧ env.wait_ret = 0

instance (env : MLEnv) : Decidable (mlTimeoutPath env) := by
  unfold mlTimeoutPath
  infer_instance

end MLBridge

namespace BlockTrace

/-! Helper lemmas about the 64-bit arithmetic and the aggregate. -/

lemma wrap64_small (z : ℤ) (h1 : -(2 ^ 63) ≤ z) (h2 : z < 2 ^ 63) : wrap64 z = z := by
  unfold wrap64
  omega

/-- `absDiff64` is the circular 64-bit distance: the smaller of the two
wrap-around differences `(b - a) mod 2 ^ 64` and `(a - b) mod 2 ^ 64`. -/
lemma absDiff64_eq_min (a b : ℕ) (ha : a < 2 ^ 64) (hb : b < 2 ^ 64) :
    absDiff64 a b = min ((b + 2 ^ 64 - a) % 2 ^ 64) ((a + 2 ^ 64 - b) % 2 ^ 64) := by
  simp only [absDiff64, wrap64, toUInt64Nat, toInt64]
  split_ifs <;> omega

/-- For sectors below `2 ^ 63`, the machine distance agrees with the
mathematical distance. -/
lemma absDiff64_eq_spec (a b : ℕ) (ha : a < 2 ^ 63) (hb : b < 2 ^ 63) :
    absDiff64 a b = specAbsDistance a b := by
  rw [absDiff64_eq_min a b (by omega) (by omega)]
  unfold specAbsDistance
  omega

/-- When the mathematical distance is below `2 ^ 55`, the wrapped jump test
agrees with the exact-arithmetic jump test of the spec. -/
lemma minDist_cond_small (a b : ℕ) (ha : a < 2 ^ 64) (hb : b < 2 ^ 64)
    (h : specAbsDistance a b < 2 ^ 55) :
    (JUMP_THRESHOLD_BYTES <
        (min ((b + 2 ^ 64 - a) % 2 ^ 64) ((a + 2 ^ 64 - b) % 2 ^ 64) * 512) % 2 ^ 64
      ↔ JUMP_THRESHOLD_BYTES < specAbsDistance a b * 512) := by
  unfold specAbsDistance JUMP_THRESHOLD_BYTES at *
  omega

lemma process_event_jumps_le (e : BlockEvent) (s : WindowStats)
    (h : s.jumps ≤ s.reqs) :
    (process_event e s).jumps ≤ (process_event e s).reqs := by
  simp only [process_event]
  split_ifs <;> omega

lemma foldl_jumps_le (evs : List BlockEvent) :
    ∀ s : WindowStats, s.jumps ≤ s.reqs →
      (evs.foldl (fun t e => process_event e t) s).jumps ≤
        (evs.foldl (fun t e => process_event e t) s).reqs := by
  induction evs with
  | nil => intro s h; simpa using h
  | cons e rest ih => intro s h; exact ih _ (process_event_jumps_le e s h)

/-- In every reachable aggregate, at most one jump has been counted per
accepted request. -/
lemma runEvents_jumps_le (evs : List BlockEvent) :
    (runEvents evs).jumps ≤ (runEvents evs).reqs :=
  foldl_jumps_le evs WindowStats.init (by simp [WindowStats.init])

lemma calculate_features_f1 (w : ℚ) (s : WindowStats) (h : s.reqs ≠ 0) :
    (calculate_features w s).f1 = (s.jumps : ℚ) / (s.reqs : ℚ) := by
  simp only [calculate_features, if_neg h]
  simp [Nat.pos_of_ne_zero h]

lemma calculate_features_f3 (w : ℚ) (s : WindowStats) (h : s.reqs ≠ 0)
    (hle : s.jumps ≤ s.reqs) :
    (calculate_features w s).f3 = 1 - (s.jumps : ℚ) / (s.reqs : ℚ) := by
  have hpos : (0 : ℚ) < (s.reqs : ℚ) := by
    exact_mod_cast Nat.pos_of_ne_zero h
  have hjr0 : (0 : ℚ) ≤ (s.jumps : ℚ) / (s.reqs : ℚ) := by positivity
  have hjr1 : (s.jumps : ℚ) / (s.reqs : ℚ) ≤ 1 := by
    rw [div_le_one hpos]
    exact_mod_cast hle
  simp only [calculate_features, if_neg h]
  simp only [gt_iff_lt, Nat.pos_of_ne_zero h, if_true]
  rw [if_neg (show ¬(1 - (s.jumps : ℚ) / (s.reqs : ℚ) < 0) by linarith)]
  rw [if_neg (show ¬(1 < 1 - (s.jumps : ℚ) / (s.reqs : ℚ)) by linarith)]

end BlockTrace

namespace BlockTrace

/-! Claim theorems. -/

/-- C1, counterexample: the claim that the Aggregator itself discards
zero-byte events is false.  Delivering the event `sector = 7, bytes = 0` to
`process_event` on the empty aggregate does not leave the state unchanged:
the request count becomes `1`. -/
theorem zero_byte_event_changes_aggregate :
    ¬((process_event ⟨7, 0, 0, 0⟩ WindowStats.init).reqs = WindowStats.init.reqs) := by
  decide

/-- C1, amended: zero-byte events are discarded by the Event Source, not by
the Aggregator.  `process_event` accepts an event with `bytes == 0`
unconditionally — it appends the sector, increments `request_count` and
updates `last_sector` (only `bytes_total` is unaffected, because zero is
added) — while the kernel-side BPF handler submits a record to the perf
buffer only when its `bytes` field is positive. -/
theorem zero_byte_discard_in_source (e : BlockEvent) (s : WindowStats)
    (h : e.bytes = 0) :
    (process_event e s).bytes_acc = s.bytes_acc
    ∧ (process_event e s).reqs = s.reqs + 1
    ∧ (process_event e s).sectors = s.sectors ++ [e.sector]
    ∧ (process_event e s).last_sector = e.sector
    ∧ (∀ sec nr ts rw ev, bpf_handler sec nr ts rw = some ev → 0 < ev.bytes) := by
  refine ⟨by simp [process_event, h], rfl, rfl, rfl, ?_⟩
  intro sec nr ts rw ev hev
  simp only [bpf_handler] at hev
  split_ifs at hev with hb
  simp only [Option.some.injEq] at hev
  rw [← hev]
  exact hb

/-- C1, witness: the amended theorem applied to the concrete zero-byte event
`sector = 7` on the empty aggregate. -/
theorem zero_byte_discard_in_source_witness :
    (process_event ⟨7, 0, 0, 0⟩ WindowStats.init).bytes_acc = 0
    ∧ (process_event ⟨7, 0, 0, 0⟩ WindowStats.init).reqs = 1 := by
  have h := zero_byte_discard_in_source ⟨7, 0, 0, 0⟩ WindowStats.init rfl
  exact ⟨h.1, h.2.1⟩

/-- C2, counterexample: a window accepting exactly the events at sectors
`0` and `3000000` (4096 bytes each) does not have `jump_count = 1`,
`jump_ratio = 1` and `sequential_ratio = 0`: its jump count is `0`. -/
theorem scenarioC_claim_false :
    ¬((runEvents [⟨0, 4096, 0, 0⟩, ⟨3000000, 4096, 0, 0⟩]).jumps = 1
      ∧ (calculate_features 1 (runEvents [⟨0, 4096, 0, 0⟩, ⟨3000000, 4096, 0, 0⟩])).f1 = 1
      ∧ (calculate_features 1 (runEvents [⟨0, 4096, 0, 0⟩, ⟨3000000, 4096, 0, 0⟩])).f3 = 0) := by
  intro hcl
  exact absurd hcl.1 (by decide)

/-- C2, amended: for the window accepting exactly the two events at sectors
`0` and `3000000` (each with positive byte count), the first event stores
`last_sector = 0`, which is indistinguishable from the "no prior request"
sentinel, so the jump check is skipped for the second event:
`jump_count = 0`, and finalize yields `jump_ratio = 0` and
`sequential_ratio = 1` for every window length. -/
theorem scenarioC_sentinel_skips_jump (b1 b2 : ℕ) (w : ℚ)
    (_hb1 : 0 < b1) (_hb2 : 0 < b2) :
    (runEvents [⟨0, b1, 0, 0⟩, ⟨3000000, b2, 0, 0⟩]).jumps = 0
    ∧ (calculate_features w (runEvents [⟨0, b1, 0, 0⟩, ⟨3000000, b2, 0, 0⟩])).f1 = 0
    ∧ (calculate_features w (runEvents [⟨0, b1, 0, 0⟩, ⟨3000000, b2, 0, 0⟩])).f3 = 1 := by
  have hj : (runEvents [⟨0, b1, 0, 0⟩, ⟨3000000, b2, 0, 0⟩]).jumps = 0 := by
    simp [runEvents, process_event, WindowStats.init]
  have hr : (runEvents [⟨0, b1, 0, 0⟩, ⟨3000000, b2, 0, 0⟩]).reqs = 2 := by
    simp [runEvents, process_event, WindowStats.init]
  have hne : (runEvents [⟨0, b1, 0, 0⟩, ⟨3000000, b2, 0, 0⟩]).reqs ≠ 0 := by
    rw [hr]
    norm_num
  have hf1 := calculate_features_f1 w _ hne
  have hf3 := calculate_features_f3 w _ hne (by rw [hj]; exact Nat.zero_le _)
  rw [hf1, hf3, hj, hr]
  norm_num

/-- C2, witness: the amended scenario with 4096-byte events and a
one-second window. -/
theorem scenarioC_sentinel_skips_jump_witness :
    (runEvents [⟨0, 4096, 0, 0⟩, ⟨3000000, 4096, 0, 0⟩]).jumps = 0
    ∧ (calculate_features 1 (runEvents [⟨0, 4096, 0, 0⟩, ⟨3000000, 4096, 0, 0⟩])).f3 = 1 := by
  have h := scenarioC_sentinel_skips_jump 4096 4096 1 (by norm_num) (by norm_num)
  exact ⟨h.1, h.2.2⟩

/-- C3, counterexample: the increment condition is not
`|sector - last_sector| * 512 > 1000000` in exact arithmetic.  After the
event at sector `1`, the event at sector `2 ^ 55 + 1` has mathematical
distance `2 ^ 55`, whose byte distance `2 ^ 64` exceeds the threshold, yet
the 64-bit product `2 ^ 55 * 512` wraps to `0` and no jump is counted. -/
theorem jump_check_overflow_cex :
    (runEvents [⟨1, 4096, 0, 0⟩]).last_sector = 1
    ∧ JUMP_THRESHOLD_BYTES < specAbsDistance 1 (2 ^ 55 + 1) * 512
    ∧ (runEvents [⟨1, 4096, 0, 0⟩, ⟨2 ^ 55 + 1, 4096, 0, 0⟩]).jumps = 0 := by
  decide

/-- C3, amended: `last_sector` is set to the event's sector by every accept;
no jump is counted when the prior `last_sector` is `0`; otherwise the jump
count is incremented exactly when the 64-bit computation
`(circular-distance * 512) mod 2 ^ 64` exceeds the threshold, where the
circular distance is `min((sector - last) mod 2 ^ 64, (last - sector) mod
2 ^ 64)`.  Whenever the mathematical sector distance is below `2 ^ 55`
(every physically realizable device), this agrees with the spec's exact
condition `|sector - last_sector| * 512 > 1000000`. -/
theorem accept_jump_update (s : WindowStats) (e : BlockEvent)
    (hs : s.last_sector < 2 ^ 64) (he : e.sector < 2 ^ 64) :
    (process_event e s).last_sector = e.sector
    ∧ (s.last_sector = 0 → (process_event e s).jumps = s.jumps)
    ∧ (s.last_sector ≠ 0 →
        ((process_event e s).jumps =
          if JUMP_THRESHOLD_BYTES <
              (min ((e.sector + 2 ^ 64 - s.last_sector) % 2 ^ 64)
                ((s.last_sector + 2 ^ 64 - e.sector) % 2 ^ 64) * 512) % 2 ^ 64
            then s.jumps + 1 else s.jumps)
        ∧ (specAbsDistance s.last_sector e.sector < 2 ^ 55 →
            ((process_event e s).jumps = s.jumps + 1 ↔
              JUMP_THRESHOLD_BYTES < specAbsDistance s.last_sector e.sector * 512))) := by
  have hmin : (process_event e s).jumps =
      if s.last_sector ≠ 0 then
        (if JUMP_THRESHOLD_BYTES <
            (min ((e.sector + 2 ^ 64 - s.last_sector) % 2 ^ 64)
              ((s.last_sector + 2 ^ 64 - e.sector) % 2 ^ 64) * 512) % 2 ^ 64
          then s.jumps + 1 else s.jumps)
      else s.jumps := by
    simp only [process_event]
    rw [absDiff64_eq_min s.last_sector e.sector hs he]
  refine ⟨rfl, ?_, ?_⟩
  · intro h0
    simp [process_event, h0]
  · intro hne
    have hj : (process_event e s).jumps =
        if JUMP_THRESHOLD_BYTES <
            (min ((e.sector + 2 ^ 64 - s.last_sector) % 2 ^ 64)
              ((s.last_sector + 2 ^ 64 - e.sector) % 2 ^ 64) * 512) % 2 ^ 64
          then s.jumps + 1 else s.jumps := by
      rw [hmin, if_pos hne]
    refine ⟨hj, ?_⟩
    intro hsmall
    rw [hj, if_congr (minDist_cond_small s.last_sector e.sector hs he hsmall) rfl rfl]
    by_cases hc : JUMP_THRESHOLD_BYTES < specAbsDistance s.last_sector e.sector * 512
    · simp [hc]
    · simp [hc]

/-- C3, witness: accepting the event at sector `2500` after the event at
sector `1` (distance 2499, byte distance 1279488 above the threshold)
increments the jump count. -/
theorem accept_jump_update_witness :
    (⟨[1], 4096, 1, 0, 1⟩ : WindowStats).last_sector ≠ 0
    ∧ (process_event ⟨2500, 4096, 0, 0⟩ ⟨[1], 4096, 1, 0, 1⟩).jumps = 1 := by
  have h := accept_jump_update ⟨[1], 4096, 1, 0, 1⟩ ⟨2500, 4096, 0, 0⟩
    (by norm_num) (by norm_num)
  refine ⟨by norm_num, ?_⟩
  have h2 := (h.2.2 (by norm_num)).2 (by decide)
  exact h2.mpr (by decide)

/-- C4: in every reachable aggregate with at least one request, finalize
produces `jump_ratio ∈ [0, 1]`,
`sequential_ratio = clamp(1 - jump_ratio, 0, 1)`, the clamp never
activates (`sequential_ratio = 1 - jump_ratio` exactly), and
`sequential_ratio + jump_ratio = 1`. -/
theorem features_ratio_invariant (evs : List BlockEvent) (w : ℚ)
    (h : 0 < (runEvents evs).reqs) :
    0 ≤ (calculate_features w (runEvents evs)).f1
    ∧ (calculate_features w (runEvents evs)).f1 ≤ 1
    ∧ (calculate_features w (runEvents evs)).f3
        = max 0 (min 1 (1 - (calculate_features w (runEvents evs)).f1))
    ∧ (calculate_features w (runEvents evs)).f3
        = 1 - (calculate_features w (runEvents evs)).f1
    ∧ (calculate_features w (runEvents evs)).f3
        + (calculate_features w (runEvents evs)).f1 = 1 := by
  have hne : (runEvents evs).reqs ≠ 0 := Nat.pos_iff_ne_zero.mp h
  have hle := runEvents_jumps_le evs
  have hpos : (0 : ℚ) < ((runEvents evs).reqs : ℚ) := by exact_mod_cast h
  have hf1 := calculate_features_f1 w (runEvents evs) hne
  have hf3 := calculate_features_f3 w (runEvents evs) hne hle
  have h0 : 0 ≤ (calculate_features w (runEvents evs)).f1 := by
    rw [hf1]
    positivity
  have h1 : (calculate_features w (runEvents evs)).f1 ≤ 1 := by
    rw [hf1, div_le_one hpos]
    exact_mod_cast hle
  refine ⟨h0, h1, ?_, ?_, ?_⟩
  · rw [hf3, hf1, min_eq_right (by linarith), max_eq_right (by linarith)]
  · rw [hf3, hf1]
  · rw [hf3, hf1]
    ring

/-- C4, witness: the invariant at the one-event window `[sector 0]`. -/
theorem features_ratio_invariant_witness :
    0 < (runEvents [⟨0, 4096, 0, 0⟩]).reqs
    ∧ (calculate_features 1 (runEvents [⟨0, 4096, 0, 0⟩])).f3
        + (calculate_features 1 (runEvents [⟨0, 4096, 0, 0⟩])).f1 = 1 :=
  ⟨by decide, (features_ratio_invariant [⟨0, 4096, 0, 0⟩] 1 (by decide)).2.2.2.2⟩

/-- C5: for every window with `request_count == 0`, finalize returns the
all-zero feature vector (and, being a pure function of the aggregate in
this embedding — the source method only reads `stats` — it cannot mutate
it). -/
theorem finalize_empty_window (w : ℚ) (s : WindowStats) (h : s.reqs = 0) :
    calculate_features w s = ⟨0, 0, 0, 0, 0⟩ := by
  simp [calculate_features, h]

/-- C5, witness: finalize of the freshly reset aggregate is all-zero. -/
theorem finalize_empty_window_witness :
    WindowStats.init.reqs = 0
    ∧ calculate_features 1 WindowStats.init = ⟨0, 0, 0, 0, 0⟩ :=
  ⟨rfl, finalize_empty_window 1 WindowStats.init rfl⟩

/-- C6: the window accepting sectors `[0, 100, 200]`, 4096 bytes each, over
one second finalizes to `avg_inter_request_distance_bytes = 51200`,
`jump_ratio = 0`, `avg_io_size_bytes = 4096`, `sequential_ratio = 1`,
`iops = 3`. -/
theorem scenarioA_features :
    calculate_features 1
      (runEvents [⟨0, 4096, 0, 0⟩, ⟨100, 4096, 0, 0⟩, ⟨200, 4096, 0, 0⟩])
      = ⟨51200, 0, 4096, 1, 3⟩ := by
  have hst : runEvents [⟨0, 4096, 0, 0⟩, ⟨100, 4096, 0, 0⟩, ⟨200, 4096, 0, 0⟩]
      = ⟨[0, 100, 200], 12288, 3, 0, 200⟩ := by decide
  have hd : distLoop 0 0 0 [100, 200] = (200, 2) := by decide
  have hnil : ([100, 200] : List ℕ) ≠ [] := by decide
  have ha : avgDistanceSectors [0, 100, 200] = 100 := by
    simp only [avgDistanceSectors, hd, if_neg hnil]
    norm_num
  rw [hst]
  norm_num [calculate_features, ha, FeatureVec.mk.injEq]

/-- C7: a class index outside `{0, 1, 2}` returned by the classifier is
never applied: the control loop performs no read-ahead write for that
window. -/
theorem invalid_class_not_applied (pred : ℤ) (h : pred < 0 ∨ 3 ≤ pred) :
    windowApply pred = none := by
  unfold windowApply
  rw [if_neg]
  rintro ⟨h1, h2⟩
  rcases h with h | h <;> omega

/-- C7, witness: class index `5` (Scenario D) causes no policy write. -/
theorem invalid_class_not_applied_witness : windowApply 5 = none :=
  invalid_class_not_applied 5 (Or.inr (by norm_num))

/-- C8: every classify failure — failed connection, a send that does not
transfer exactly the 20-byte payload, or a receive that does not transfer
exactly the 4-byte reply — yields the transport-error result `-1`; any
opened socket is closed on every path; and a failed window leads to no
read-ahead write, leaving the device control endpoint at its prior value. -/
theorem transport_failure_abandons_window (env : NetEnv) :
    ((send_to_daemon env).opened = true → (send_to_daemon env).closed = true)
    ∧ (env.connect_ok = false ∨ env.send_ret ≠ 20 ∨ env.recv_ret ≠ 4 →
        (send_to_daemon env).result = -1
        ∧ windowApply (send_to_daemon env).result = none) := by
  have hw : windowApply (-1) = none := by decide
  constructor
  · unfold send_to_daemon
    split_ifs <;> simp
  · intro hfail
    have hres : (send_to_daemon env).result = -1 := by
      unfold send_to_daemon
      rcases hfail with h | h | h <;> split_ifs <;> simp_all
    rw [hres]
    exact ⟨rfl, hw⟩

/-- C8, witness: a refused connection (Scenario E) returns `-1` and causes
no read-ahead write. -/
theorem transport_failure_abandons_window_witness :
    (send_to_daemon ⟨true, false, 0, 0, 0⟩).result = -1
    ∧ windowApply (send_to_daemon ⟨true, false, 0, 0, 0⟩).result = none :=
  (transport_failure_abandons_window ⟨true, false, 0, 0, 0⟩).2 (Or.inl rfl)

/-- C9, counterexample: the policy write does not target the read-ahead
endpoint of the monitored device supplied at startup.  With the startup
default device `sda2`, the path actually written
(`/sys/block/sda/queue/read_ahead_kb`) is not that device's endpoint. -/
theorem readahead_path_ignores_device :
    (write_readahead (READAHEAD_MAP.getD 0 0)).path ≠ specDeviceEndpoint DEFAULT_DEVICE
    ∧ READAHEAD_MAP.getD 0 0 = 256 := by
  decide

/-- C9, amended: for every valid class index, the applier writes the decimal
ASCII representation (plus newline) of the fixed mapping
`{0 : 256, 1 : 16, 2 : 64}` to the hard-coded endpoint of device `sda`,
regardless of the device supplied at startup. -/
theorem apply_writes_fixed_sda_endpoint (pred : ℤ) (h0 : 0 ≤ pred) (h3 : pred < 3) :
    windowApply pred =
      some { path := specDeviceEndpoint "sda"
             content := Nat.repr (READAHEAD_MAP.getD pred.toNat 0) ++ "\n" }
    ∧ READAHEAD_MAP = [256, 16, 64] := by
  refine ⟨?_, rfl⟩
  unfold windowApply
  rw [if_pos ⟨h0, h3⟩]
  rfl

/-- C9, witness: class `0` writes `"256\n"` to the fixed `sda` endpoint. -/
theorem apply_writes_fixed_sda_endpoint_witness :
    windowApply 0 =
      some { path := specDeviceEndpoint "sda", content := Nat.repr 256 ++ "\n" } :=
  (apply_writes_fixed_sda_endpoint 0 (by norm_num) (by norm_num)).1

end BlockTrace

namespace MLBridge

/-- C10: in the kernel-bridge binding, expiry of the 200 ms deadline — and
only that — yields `-ETIMEDOUT`, which is distinct from the results of
every other failure path (not connected `-ENOTCONN`, allocation failure
`-ENOMEM`, a propagated `nlmsg_unicast` error, an interrupted wait
`-ERESTARTSYS`) and from every valid prediction value in `{0, 1, 2}`.  The
hypotheses record the kernel API contract of the external collaborators:
`nlmsg_unicast` never fails with `-ETIMEDOUT`, an interrupted
`wait_event_interruptible_timeout` returns `-ERESTARTSYS`, and a completed
exchange carries a valid class index. -/
theorem ml_timeout_distinct (env : MLEnv)
    (hu : env.unicast_ret ≠ -ETIMEDOUT)
    (hw : env.wait_ret < 0 → env.wait_ret = -ERESTARTSYS)
    (hr : 0 < env.wait_ret → 0 ≤ env.reply ∧ env.reply < 3) :
    (mlTimeoutPath env → ml_send_features env = -ETIMEDOUT)
    ∧ (¬mlTimeoutPath env → ml_send_features env ≠ -ETIMEDOUT)
    ∧ (∀ c : ℤ, 0 ≤ c → c < 3 → (-ETIMEDOUT : ℤ) ≠ c) := by
  have he : ETIMEDOUT = 110 := rfl
  refine ⟨?_, ?_, ?_⟩
  · rintro ⟨hn, hp, ha, hq, hu0, hw0⟩
    unfold ml_send_features
    rw [if_neg (by simp [hn, hp]), if_neg (by simp [ha]), if_neg (by simp [hq]),
      if_neg (by omega), if_pos hw0]
  · intro hnot hres
    unfold ml_send_features at hres
    by_cases h1 : ¬env.nl_created ∨ env.listener_pid = 0
    · rw [if_pos h1] at hres
      exact absurd hres (by decide)
    rw [if_neg h1] at hres
    by_cases h2 : ¬env.alloc_ok
    · rw [if_pos h2] at hres
      exact absurd hres (by decide)
    rw [if_neg h2] at hres
    by_cases h3 : ¬env.put_ok
    · rw [if_pos h3] at hres
      exact absurd hres (by decide)
    rw [if_neg h3] at hres
    by_cases h4 : env.unicast_ret < 0
    · rw [if_pos h4] at hres
      exact hu hres
    rw [if_neg h4] at hres
    by_cases h5 : env.wait_ret = 0
    · apply hnot
      simp only [not_or, not_not] at h1
      simp only [not_not] at h2 h3
      exact ⟨by simpa using h1.1, h1.2, by simpa using h2, by simpa using h3,
        not_lt.mp h4, h5⟩
    rw [if_neg h5] at hres
    by_cases h6 : env.wait_ret < 0
    · rw [if_pos h6] at hres
      rw [hw h6] at hres
      exact absurd hres (by decide)
    · rw [if_neg h6] at hres
      have hval := hr (by omega)
      rw [hres] at hval
      omega
  · intro c hc0 hc3
    omega

/-- C10, witness: a registered listener whose reply never arrives within the
deadline surfaces `-ETIMEDOUT`. -/
theorem ml_timeout_distinct_witness :
    ml_send_features ⟨true, 5, true, true, 20, 0, 0⟩ = -ETIMEDOUT :=
  (ml_timeout_distinct ⟨true, 5, true, true, 20, 0, 0⟩ (by decide) (by decide)
    (by decide)).1 (by decide)

end MLBridge
